import Mathlib

/-!
Verification of the host-authoritative state-synchronization layer of the
Target-Shooting-Multi repository.  The definitions below are shallow
embeddings of the JavaScript source: JS `Map`s become insertion-ordered
association lists, the Three.js scene becomes a list of object ids
(duplicates = distinct objects), epoch-millisecond clocks become `Int`,
and every externally visible handler call or network send becomes an
explicit `Eff` value returned by the embedded function.
The repository bundles several versions of some files; variants are kept
in separate namespaces (`NMW` = the `NetworkManager` found in
`World.js`, `NMS` = the one in `NetworkManager.js`, `BM1`/`BM3` = the
first and third `BirdManager` in `AudioManager.js`, `UIA`/`UIB` = the
first and second `UIManager` in `unnamed/part_005`, `UIC` = the
`UIManager` in `unnamed/part_006`).
-/

namespace TSM

/-- Insertion-ordered association list standing for a JS `Map`:
`get` returns the first (on a `Map`: the only) entry for the key. -/
def mapGet {α : Type} (m : List (String × α)) (k : String) : Option α :=
  match m with
  | [] => none
  | p :: rest => if p.1 == k then some p.2 else mapGet rest k

/-- JS `Map.set`: replace the entry if the key is present, else append
(insertion order preserved; keys of a `Map` are unique). -/
def mapSet {α : Type} (m : List (String × α)) (k : String) (v : α) :
    List (String × α) :=
  match m with
  | [] => [(k, v)]
  | p :: rest => if p.1 == k then (k, v) :: rest else p :: mapSet rest k v

/-- JS `Map.delete`: drop the entry with the key (on a `Map` the key is
held at most once). -/
def mapDelete {α : Type} (m : List (String × α)) (k : String) :
    List (String × α) :=
  m.filter (fun p => p.1 != k)

/- ===================== C7: reconnection backoff ===================== -/

/-- Backoff state of `NetworkManager` (`reconnectAttempts`,
`reconnectDelay`; both dispatcher variants have the identical code).
`maxReconnectAttempts` is the constant 5. -/
structure ReconnState where
  reconnectAttempts : Nat
  reconnectDelay : Nat
  deriving Repr, DecidableEq

/-- Constructor-time backoff state: `reconnectAttempts = 0`,
`reconnectDelay = 1000`. -/
def reconnInit : ReconnState := ⟨0, 1000⟩

/-- `attemptReconnect()`: returns the delay (ms) after which the next
`connect()` is scheduled, or `none` when
`reconnectAttempts >= maxReconnectAttempts` (5) and nothing is
scheduled. -/
def attemptReconnect (s : ReconnState) : Option Nat :=
  if s.reconnectAttempts ≥ 5 then none else some s.reconnectDelay

/-- State change of one scheduled attempt that fails: the timeout
callback increments `reconnectAttempts`, and the `connect()` rejection
handler doubles `reconnectDelay`, capped at 10000. -/
def reconnFail (s : ReconnState) : ReconnState :=
  ⟨s.reconnectAttempts + 1, min (s.reconnectDelay * 2) 10000⟩

/-- `ws.onopen` of a successful `connect()`: resets
`reconnectAttempts := 0` and `reconnectDelay := 1000`. -/
def reconnOpen (_s : ReconnState) : ReconnState := ⟨0, 1000⟩

/-- Backoff state after `k` consecutive failed attempts starting from
the constructor state. -/
def reconnAfter (k : Nat) : ReconnState := reconnFail^[k] reconnInit

/-- Delay scheduled before the `n`-th attempt (`n ≥ 1`) of a run of
consecutive failures from a fresh state; `none` if no attempt is
scheduled. -/
def delayBefore (n : Nat) : Option Nat := attemptReconnect (reconnAfter (n - 1))

/- ===================== C9: room-code generation ===================== -/

/-- One base-36 digit as the character JS `Number.toString(36)` emits
(`0`-`9` then `a`-`z`). -/
def base36Char (d : Fin 36) : Char :=
  if d.val < 10 then Char.ofNat (48 + d.val) else Char.ofNat (87 + d.val)

/-- Character list of JS `Math.random().toString(36)` for a draw in
`[0,1)` whose base-36 fractional expansion is the digit list `ds`
(shortest form, so no trailing zero digit): `"0"` for the empty
expansion (the draw 0), otherwise `"0." ++ digits`. -/
def randomToString36 (ds : List (Fin 36)) : List Char :=
  if ds.isEmpty then ['0'] else '0' :: '.' :: ds.map base36Char

/-- Character list of the `hostRoom()` room code
(`Math.random().toString(36).substring(2, 8).toUpperCase()`):
characters 2..7 of the string, uppercased.  Identical in both
`NetworkManager` variants. -/
def hostRoomCode (ds : List (Fin 36)) : List Char :=
  (((randomToString36 ds).drop 2).take 6).map Char.toUpper

/- ================= wire frames and handler effects ================= -/

/-- A 3-component vector as carried in message payloads.  The source
stores Three.js float vectors; the sync layer only copies them
verbatim, so the components are modelled as integers. -/
structure Vec3 where
  x : Int
  y : Int
  z : Int
  deriving Repr, DecidableEq

/-- Payload of a `birdSpawned` frame (`BirdManager.spawnBird`). -/
structure BirdSpawnData where
  id : String
  position : Vec3
  direction : Vec3
  spawnTime : Int
  playSound : Bool
  deriving Repr, DecidableEq

/-- Payload of a `birdHit` frame. -/
structure BirdHitData where
  birdId : String
  bulletShooterId : String
  position : Vec3
  points : Int
  deriving Repr, DecidableEq

/-- Payload of a `birdHitAttempt` frame. -/
structure HitAttemptData where
  birdId : String
  bulletShooterId : String
  position : Vec3
  deriving Repr, DecidableEq

/-- Payload of a `gameStart` frame.  JS truthiness checks
(`!data.data.startTime`) make 0 behave like a missing field. -/
structure GameStartData where
  startTime : Int
  duration : Int
  deriving Repr, DecidableEq

/-- Payload of a `timerSync` frame (all epoch/derived times in ms,
except `gameTime` in whole seconds). -/
structure TimerSyncData where
  currentTime : Int
  gameStartTime : Int
  gameDuration : Int
  gameTime : Int
  deriving Repr, DecidableEq

/-- The `data` field of a frame, a tagged union over the payload shapes
the embedded handlers inspect; payloads the sync layer only forwards
(bullets, spheres) are kept as a tag. -/
inductive Payload where
  | bird (d : BirdSpawnData)
  | hit (d : BirdHitData)
  | attempt (d : HitAttemptData)
  | game (d : GameStartData)
  | timer (d : TimerSyncData)
  | forwarded (tag : String)
  deriving Repr, DecidableEq

/-- Roster entry carried by `hostConfirm`/`joinConfirm` (`players[]`);
only the id and whether a `position` is attached matter to the
dispatcher. -/
structure PlayerInfo where
  id : String
  hasPosition : Bool
  deriving Repr, DecidableEq

/-- A decoded inbound frame: the common envelope plus the type-specific
top-level fields the dispatchers read.  `none` = absent field. -/
structure Frame where
  type : String
  senderId : Option String := none
  id : Option String := none
  roomCode : Option String := none
  players : List PlayerInfo := []
  data : Option Payload := none
  playerId : Option String := none
  message : Option String := none
  deriving Repr, DecidableEq

/-- Externally visible actions of the embedded handlers: calls into the
out-of-scope collaborators (player/bullet/sphere managers, renderer,
audio, UI) and network sends. -/
inductive Eff where
  | createLocalPlayer
  | addPlayer (id : String)
  | removePlayer (id : String)
  | updatePlayer (id : String)
  | bulletSpawn (sender : Option String)
  | bulletHit
  | sphereSpawn (sender : Option String)
  | sphereRemoved
  | birdSpawnCall (d : BirdSpawnData)
  | birdHitCall (d : BirdHitData)
  | gameStartCall (startTime duration : Int)
  | gameEndCall
  | timerSyncCall (d : TimerSyncData)
  | send (f : Frame)
  | voice (kind : String) (playerId : Option String)
  | showError (message : Option String)
  | scoreReset
  | sound (kind : String)
  | explosion (p : Vec3)
  | haptics
  | displayTimer (minutes seconds : Nat)
  | hideStartButton
  | showStartButton
  | deferStartTimer (ms : Nat)
  deriving Repr, DecidableEq

/- ============ C2/C10/C1: the two message dispatchers ============ -/

/-- JS strict equality `data.senderId === this.localPlayerId` for the
self-frame check: true only when both sides hold the same string
(an absent `senderId` — undefined — never equals the local id, which is
`null` before `init` and a string afterwards). -/
def isSelf (sender localId : Option String) : Bool :=
  match sender, localId with
  | some a, some b => a == b
  | _, _ => false

/-- `send(data)`: before transmission the sender id is attached if
absent (`data.senderId = data.senderId || this.localPlayerId`). -/
def sendFill (localId : Option String) (f : Frame) : Frame :=
  if f.senderId.isNone then { f with senderId := localId } else f

/-- Dispatcher-visible slice of the engine: the `NetworkManager` fields
the `handleMessage` switches read or write, plus the key set of the
`BirdManager.birds` map (the `birdHitAttempt` case only tests presence
of an id) and the two `UIManager` flags the `timerSync` case reads. -/
structure NMState where
  localPlayerId : Option String
  currentRoom : Option String
  isHost : Bool
  birdIds : List String
  uiGameStarted : Bool
  uiTimerInterval : Bool
  deriving Repr, DecidableEq

/-- Roster seeding shared by the `hostConfirm`/`joinConfirm` cases: for
each listed player other than the local one, `addPlayer` and — when a
position is attached — `updatePlayer`. -/
def rosterEffs (localId : Option String) (ps : List PlayerInfo) : List Eff :=
  ps.flatMap (fun p =>
    if localId = some p.id then []
    else Eff.addPlayer p.id :: (if p.hasPosition then [Eff.updatePlayer p.id] else []))

namespace NMW

/-- The switch body of `NetworkManager.handleMessage` in the `World.js`
variant (runs after the self-frame check).  Cases whose payload does
not have the shape the handler destructures are modelled as drops (in
JS they would fault on an undefined field).  Frames of type
`playerJoined`/`playerLeft`/`position` are modelled with their `id`
present, as the relay always attaches it. -/
def dispatch (s : NMState) (m : Frame) : NMState × List Eff :=
  match m.type with
  | "init" => ({ s with localPlayerId := m.id }, [])
  | "hostConfirm" =>
      ({ s with currentRoom := m.roomCode, isHost := true },
       Eff.createLocalPlayer :: rosterEffs s.localPlayerId m.players)
  | "joinConfirm" =>
      ({ s with currentRoom := m.roomCode, isHost := false },
       Eff.createLocalPlayer :: rosterEffs s.localPlayerId m.players)
  | "autoJoinConfirm" =>
      ({ s with currentRoom := m.roomCode, isHost := false },
       Eff.createLocalPlayer :: rosterEffs s.localPlayerId m.players)
  | "playerJoined" =>
      if s.currentRoom.isNone then (s, [])
      else match m.id with
        | some i => if s.localPlayerId = some i then (s, []) else (s, [Eff.addPlayer i])
        | none => (s, [])
  | "playerLeft" =>
      if s.currentRoom.isNone then (s, [])
      else match m.id with
        | some i => if s.localPlayerId = some i then (s, []) else (s, [Eff.removePlayer i])
        | none => (s, [])
  | "position" =>
      if s.currentRoom.isNone then (s, [])
      else match m.id with
        | some i => if s.localPlayerId = some i then (s, []) else (s, [Eff.updatePlayer i])
        | none => (s, [])
  | "bulletSpawned" => (s, [Eff.bulletSpawn m.senderId])
  | "bulletHit" => (s, [Eff.bulletHit])
  | "sphereSpawned" =>
      if isSelf m.senderId s.localPlayerId then (s, []) else (s, [Eff.sphereSpawn m.senderId])
  | "sphereRemoved" => (s, [Eff.sphereRemoved])
  | "birdSpawned" =>
      match m.data with
      | some (Payload.bird d) => (s, [Eff.birdSpawnCall d])
      | _ => (s, [])
  | "birdHitAttempt" =>
      if s.isHost then
        match m.data, m.senderId with
        | some (Payload.attempt d), some sid =>
            if s.birdIds.contains d.birdId then
              (s, [Eff.send (sendFill s.localPlayerId
                    { type := "birdHit",
                      data := some (Payload.hit ⟨d.birdId, sid, d.position, 10⟩) })])
            else (s, [])
        | _, _ => (s, [])
      else (s, [])
  | "birdHit" =>
      match m.data with
      | some (Payload.hit d) => (s, [Eff.birdHitCall d])
      | _ => (s, [])
  | "gameStart" =>
      if s.isHost then (s, [])
      else match m.data with
        | some (Payload.game d) =>
            if d.startTime = 0 ∨ d.duration = 0 then (s, [])
            else (s, [Eff.gameStartCall d.startTime d.duration])
        | _ => (s, [])
  | "gameEnd" => (s, [Eff.gameEndCall])
  | "voice_ready" => (s, [Eff.voice "ready" m.playerId])
  | "voice_offer" => (s, [Eff.voice "offer" m.playerId])
  | "voice_answer" => (s, [Eff.voice "answer" m.playerId])
  | "voice_ice_candidate" => (s, [Eff.voice "ice_candidate" m.playerId])
  | "voice_stop" => (s, [Eff.voice "stop" m.playerId])
  | "timerSync" =>
      if s.isHost then (s, [])
      else if !s.uiGameStarted || !s.uiTimerInterval then (s, [])
      else match m.data with
        | some (Payload.timer d) =>
            if d.gameTime = 0 then (s, []) else (s, [Eff.timerSyncCall d])
        | _ => (s, [])
  | "error" => (s, [Eff.showError m.message])
  | _ => (s, [])

/-- `NetworkManager.handleMessage` in the `World.js` variant: frames
whose `senderId` strictly equals the local id are dropped before the
switch ("Don't process our own messages"). -/
def handleMessage (s : NMState) (m : Frame) : NMState × List Eff :=
  if isSelf m.senderId s.localPlayerId then (s, []) else dispatch s m

end NMW

namespace NMS

/-- `NetworkManager.handleMessage` in the standalone
`NetworkManager.js` variant: only frames without a recognized truthy
`type` are rejected; there is NO global self-frame check — just the
per-case id guards (`playerJoined`/`playerLeft`/`position` compare
`data.id`, `sphereSpawned` compares `data.senderId`).  This variant has
no `birdHitAttempt`/`timerSync` cases, its `gameStart` case has neither
a host guard nor a validity check, and it adds a `scoreReset` case. -/
def handleMessage (s : NMState) (m : Frame) : NMState × List Eff :=
  if m.type = "" then (s, [])
  else match m.type with
  | "init" => ({ s with localPlayerId := m.id }, [])
  | "hostConfirm" =>
      ({ s with currentRoom := m.roomCode, isHost := true },
       Eff.createLocalPlayer :: rosterEffs s.localPlayerId m.players)
  | "joinConfirm" =>
      ({ s with currentRoom := m.roomCode, isHost := false },
       Eff.createLocalPlayer :: rosterEffs s.localPlayerId m.players)
  | "autoJoinConfirm" =>
      ({ s with currentRoom := m.roomCode, isHost := false },
       Eff.createLocalPlayer :: rosterEffs s.localPlayerId m.players)
  | "playerJoined" =>
      if s.currentRoom.isNone then (s, [])
      else match m.id with
        | some i => if s.localPlayerId = some i then (s, []) else (s, [Eff.addPlayer i])
        | none => (s, [])
  | "playerLeft" =>
      if s.currentRoom.isNone then (s, [])
      else match m.id with
        | some i => if s.localPlayerId = some i then (s, []) else (s, [Eff.removePlayer i])
        | none => (s, [])
  | "position" =>
      if s.currentRoom.isNone then (s, [])
      else match m.id with
        | some i => if s.localPlayerId = some i then (s, []) else (s, [Eff.updatePlayer i])
        | none => (s, [])
  | "bulletSpawned" => (s, [Eff.bulletSpawn m.senderId])
  | "bulletHit" => (s, [Eff.bulletHit])
  | "sphereSpawned" =>
      if isSelf m.senderId s.localPlayerId then (s, []) else (s, [Eff.sphereSpawn m.senderId])
  | "sphereRemoved" => (s, [Eff.sphereRemoved])
  | "birdSpawned" =>
      match m.data with
      | some (Payload.bird d) => (s, [Eff.birdSpawnCall d])
      | _ => (s, [])
  | "birdHit" =>
      match m.data with
      | some (Payload.hit d) => (s, [Eff.birdHitCall d])
      | _ => (s, [])
  | "gameStart" =>
      match m.data with
      | some (Payload.game d) => (s, [Eff.gameStartCall d.startTime d.duration])
      | _ => (s, [])
  | "gameEnd" => (s, [Eff.gameEndCall])
  | "scoreReset" => (s, [Eff.scoreReset])
  | "voice_ready" => (s, [Eff.voice "ready" m.playerId])
  | "voice_offer" => (s, [Eff.voice "offer" m.playerId])
  | "voice_answer" => (s, [Eff.voice "answer" m.playerId])
  | "voice_ice_candidate" => (s, [Eff.voice "ice_candidate" m.playerId])
  | "voice_stop" => (s, [Eff.voice "stop" m.playerId])
  | "error" => (s, [Eff.showError m.message])
  | _ => (s, [])

end NMS

/-- The `gameTime` field carried by a frame's `data`, when the payload
has the `timerSync` shape (`data.data.gameTime` in JS; `none` stands
for the undefined access on a missing or differently-shaped
payload). -/
def syncGameTime (m : Frame) : Option Int :=
  match m.data with
  | some (Payload.timer d) => some d.gameTime
  | _ => none

/- ============== C1/C3/C4: BirdManager and the ledger ============== -/

/-- A bird/ball object as held in `BirdManager.birds`. -/
structure BirdObj where
  position : Vec3
  direction : Vec3
  spawnTime : Int
  deriving Repr, DecidableEq

/-- Modelled from the spec: `ScoreManager.updateScore(playerId, delta)`
— the `ScoreManager` class itself is not under `src/` (only its callers
are).  Per spec §3 the Score Ledger is a "mapping from participant id
to integer score" mutated by "messages that carry a delta", so the
update adds the delta to the participant's entry (an absent entry
counts as 0). -/
def updateScore (scores : List (String × Int)) (pid : String) (delta : Int) :
    List (String × Int) :=
  mapSet scores pid ((mapGet scores pid).getD 0 + delta)

/-- State of a participant's `BirdManager` together with the shared
collaborators its handlers mutate: the `birds` map, the scene (a list
of object ids — a duplicated id means two distinct objects), the Score
Ledger, the local `isHost` role and the `isSpawning` flag. -/
structure BMState where
  birds : List (String × BirdObj)
  scene : List String
  scores : List (String × Int)
  isHost : Bool
  isSpawning : Bool
  deriving Repr, DecidableEq

/-- The `birdRemoved` frame `removeBird` sends on the host
(`senderId` is attached later by `send()`). -/
def birdRemovedFrame (id : String) : Frame :=
  { type := "birdRemoved", data := some (Payload.forwarded id) }

namespace BM1

/-- `BirdManager.removeBird` (first variant): if the id is in the map,
remove the object from the scene and the map, and — on the host only —
network the removal. -/
def removeBird (s : BMState) (id : String) : BMState × List Eff :=
  match mapGet s.birds id with
  | some _ =>
      ({ s with birds := mapDelete s.birds id, scene := s.scene.erase id },
       if s.isHost then [Eff.send (birdRemovedFrame id)] else [])
  | none => (s, [])

/-- Second statement of `handleNetworkBirdHit` (first variant): remove
the bird — with explosion and destruction sound — only "if it still
exists". -/
def hitRemovalStep (d : BirdHitData) (s1 : BMState) : BMState × List Eff :=
  if (mapGet s1.birds d.birdId).isSome then
    let r := removeBird s1 d.birdId
    (r.1, r.2 ++ [Eff.explosion d.position, Eff.sound "birdDestruction"])
  else (s1, [])

/-- `BirdManager.handleNetworkBirdHit` (first variant, AudioManager.js
lines 335-358): on a non-host the shooter's score is updated FIRST,
unconditionally ("Only update score if we're not the host"); the bird
is then removed only if it still exists. -/
def handleNetworkBirdHit (d : BirdHitData) (s : BMState) : BMState × List Eff :=
  hitRemovalStep d
    (if !s.isHost then
       { s with scores := updateScore s.scores d.bulletShooterId d.points }
     else s)

/-- `BirdManager.handleNetworkBirdSpawn` (first variant, AudioManager.js
lines 385-402): no existence check — the map entry is set (replacing
any previous object for that id), a NEW object is added to the scene,
the spawn sound plays if requested, and `isSpawning` is forced on. -/
def handleNetworkBirdSpawn (d : BirdSpawnData) (s : BMState) : BMState × List Eff :=
  ({ s with birds := mapSet s.birds d.id ⟨d.position, d.direction, d.spawnTime⟩,
            scene := s.scene ++ [d.id],
            isSpawning := true },
   if d.playSound then [Eff.sound "birdSpawn"] else [])

/-- `BirdManager.handleBulletCollision` (first variant, AudioManager.js
lines 259-333).  The floating-point bullet-path/sphere intersection
test (`checkBulletSpherePath`) is abstracted as the predicate `hits` on
the map entries; the first bird in map order that tests positive is
processed. On an intersection: the bird is removed immediately
("to prevent duplicate hits"), destruction sound and explosion play
(XR haptic feedback is out-of-scope device output and elided); then the
HOST updates the shooter's score and broadcasts `birdHit`, while a
GUEST only sends `birdHitAttempt` to the host.  Returns the state, the
effects and the boolean result. -/
def handleBulletCollision (hits : String → BirdObj → Bool) (shooterId : String)
    (s : BMState) : BMState × List Eff × Bool :=
  match s.birds.find? (fun p => hits p.1 p.2) with
  | none => (s, [], false)
  | some (id, bird) =>
      let pos := bird.position
      let (s1, e1) := removeBird s id
      let effs := e1 ++ [Eff.sound "birdDestruction", Eff.explosion pos]
      if s.isHost then
        ({ s1 with scores := updateScore s1.scores shooterId 10 },
         effs ++ [Eff.send { type := "birdHit",
                             data := some (Payload.hit ⟨id, shooterId, pos, 10⟩) }],
         true)
      else
        (s1,
         effs ++ [Eff.send { type := "birdHitAttempt",
                             data := some (Payload.attempt ⟨id, shooterId, pos⟩) }],
         true)

end BM1

namespace BM3

/-- `BirdManager.handleNetworkBirdSpawn` (third variant, AudioManager.js
lines 831-850): "Only create the bird if it doesn't already exist" —
when the id is already in the map the handler only logs and changes
nothing; otherwise the object is created, added to the map and the
scene. -/
def handleNetworkBirdSpawn (d : BirdSpawnData) (s : BMState) : BMState × List Eff :=
  if (mapGet s.birds d.id).isSome then (s, [])
  else
    ({ s with birds := mapSet s.birds d.id ⟨d.position, d.direction, d.spawnTime⟩,
              scene := s.scene ++ [d.id] },
     [])

end BM3

/- ========== C5/C6/C8/C10: the UIManager session machine ========== -/

/-- State of a participant's `UIManager` together with the
collaborators its handlers mutate: session flags and clocks (ms,
`Int`), the local role, the `BirdManager` map/scene/spawn flag it
clears on game end, and the Score Ledger. -/
structure UIState where
  gameStarted : Bool
  gameStartTime : Int
  gameDuration : Int
  timerInterval : Bool
  lastTimerSync : Int
  isHost : Bool
  bmBirds : List (String × BirdObj)
  bmScene : List String
  bmSpawning : Bool
  scores : List (String × Int)
  deriving Repr, DecidableEq

/-- `BirdManager.removeBird` as invoked from the `UIManager`'s
game-end cleanup (same semantics in every variant): drop the object
from the scene and the map; the host networks the removal. -/
def uiRemoveBird (s : UIState) (id : String) : UIState × List Eff :=
  match mapGet s.bmBirds id with
  | some _ =>
      ({ s with bmBirds := mapDelete s.bmBirds id, bmScene := s.bmScene.erase id },
       if s.isHost then [Eff.send (birdRemovedFrame id)] else [])
  | none => (s, [])

/-- The loop of `birds.forEach((bird, id) => removeBird(id))`:
remove the listed ids one by one, accumulating the effects. -/
def clearLoop (ids : List String) (p : UIState × List Eff) : UIState × List Eff :=
  match ids with
  | [] => p
  | id :: rest =>
      let r := uiRemoveBird p.1 id
      clearLoop rest (r.1, p.2 ++ r.2)

/-- `birds.forEach((bird, id) => removeBird(id))`: remove every bird,
in map order. -/
def clearBirds (s : UIState) : UIState × List Eff :=
  clearLoop (s.bmBirds.map Prod.fst) (s, [])

/-- The `gameEnd` frame broadcast by the host (the source passes
`senderId: networkManager.localPlayerId` explicitly; the id value is
not part of the modelled `UIManager` state and is left for
`send()`). -/
def gameEndFrame : Frame := { type := "gameEnd" }

/-- `Math.ceil(remainingTime / 1000)` for the non-negative remaining
time. -/
def ceilSeconds (remaining : Int) : Nat := (remaining.toNat + 999) / 1000

/-- The `m:ss` countdown display update sent to the VR score UI,
carried as the computed minute/second pair. -/
def timerDisplay (remaining : Int) : Eff :=
  Eff.displayTimer (ceilSeconds remaining / 60) (ceilSeconds remaining % 60)

namespace UIA

/-- `UIManager.handleGameEnd` (first variant in `unnamed/part_005`,
lines 172-211): stop the timer, reset the session flags, show the
start button to the host only, stop bird spawning and remove every
bird; only the host broadcasts `gameEnd`.  (The sphere cleanup
concerns the out-of-scope sphere subsystem and is elided.) -/
def handleGameEnd (s : UIState) : UIState × List Eff :=
  let s1 := { s with timerInterval := false, gameStarted := false, gameStartTime := 0 }
  let e1 := if s.isHost then [Eff.showStartButton] else []
  let r := clearBirds { s1 with bmSpawning := false }
  (r.1, e1 ++ r.2 ++ (if s.isHost then [Eff.send gameEndFrame] else []))

/-- `UIManager.updateTimer` (first variant in `unnamed/part_005`,
lines 213-250): when the countdown reaches zero, EVERY participant —
host or guest — runs `handleGameEnd()` (then `stopTimer()` again). -/
def updateTimer (now : Int) (s : UIState) : UIState × List Eff :=
  if !s.gameStarted || s.gameStartTime == 0 then (s, [])
  else
    let remaining := max 0 (s.gameDuration - (now - s.gameStartTime))
    if remaining ≤ 0 then
      let r := handleGameEnd s
      ({ r.1 with timerInterval := false }, timerDisplay remaining :: r.2)
    else (s, [timerDisplay remaining])

end UIA

namespace UIC

/-- `UIManager.handleGameEnd` (`unnamed/part_006`, lines 130-159):
stop the timer, reset the session flags, show the start button, stop
bird spawning and remove every bird; only the host broadcasts
`gameEnd`. -/
def handleGameEnd (s : UIState) : UIState × List Eff :=
  let s1 := { s with timerInterval := false, gameStarted := false, gameStartTime := 0 }
  let r := clearBirds { s1 with bmSpawning := false }
  (r.1, Eff.showStartButton :: r.2 ++ (if s.isHost then [Eff.send gameEndFrame] else []))

/-- `UIManager.updateTimer` (`unnamed/part_006`, lines 180-221): when
the countdown reaches zero the HOST runs `handleGameEnd()`, while a
non-host client "just stops the timer". -/
def updateTimer (now : Int) (s : UIState) : UIState × List Eff :=
  if !s.gameStarted || s.gameStartTime == 0 then (s, [])
  else
    let remaining := max 0 (s.gameDuration - (now - s.gameStartTime))
    if remaining ≤ 0 then
      if s.isHost then
        let r := handleGameEnd s
        (r.1, timerDisplay remaining :: r.2)
      else ({ s with timerInterval := false }, [timerDisplay remaining])
    else (s, [timerDisplay remaining])

/-- `UIManager.handleNetworkGameStart` (`unnamed/part_006`, lines
82-128): a `gameStart` received while `gameStarted` is already true is
ignored; otherwise, after the truthiness check on
`startTime`/`duration`, the guest stops any existing timer, adopts
`startTime`/`duration` verbatim, hides the start button, starts bird
spawning, forces a timer update and starts the interval. -/
def handleNetworkGameStart (now : Int) (d : GameStartData) (s : UIState) :
    UIState × List Eff :=
  if s.gameStarted then (s, [])
  else if d.startTime == 0 || d.duration == 0 then (s, [])
  else
    let s1 := { s with timerInterval := false, gameStarted := true,
                       gameStartTime := d.startTime, gameDuration := d.duration,
                       bmSpawning := true }
    let r := updateTimer now s1
    ({ r.1 with timerInterval := true }, Eff.hideStartButton :: r.2)

end UIC

namespace UIB

/-- The `timerSync` payload the host builds in `UIManager.update`
(second variant in `unnamed/part_005`, lines 277-297):
`gameTime = Math.floor((currentTime - gameStartTime) / 1000)`. -/
def mkTimerSync (currentTime gameStartTime gameDuration : Int) : TimerSyncData :=
  ⟨currentTime, gameStartTime, gameDuration, (currentTime - gameStartTime).fdiv 1000⟩

/-- `UIManager.update` (second variant in `unnamed/part_005`, lines
277-297): the host, while the game is running with a live interval,
broadcasts a `timerSync` at most once per second. -/
def update (now : Int) (s : UIState) : UIState × List Eff :=
  if s.isHost && s.gameStarted && s.timerInterval && decide (now - s.lastTimerSync ≥ 1000) then
    ({ s with lastTimerSync := now },
     [Eff.send { type := "timerSync",
                 data := some (Payload.timer (mkTimerSync now s.gameStartTime s.gameDuration)) }])
  else (s, [])

/-- `UIManager.handleGameEnd` (second variant in `unnamed/part_005`,
lines 444-473): same shape as the `part_006` one. -/
def handleGameEnd (s : UIState) : UIState × List Eff :=
  let s1 := { s with timerInterval := false, gameStarted := false, gameStartTime := 0 }
  let r := clearBirds { s1 with bmSpawning := false }
  (r.1, Eff.showStartButton :: r.2 ++ (if s.isHost then [Eff.send gameEndFrame] else []))

/-- `UIManager.updateTimer` (second variant in `unnamed/part_005`,
lines 494-535): host-gated game end, a guest only stops its timer. -/
def updateTimer (now : Int) (s : UIState) : UIState × List Eff :=
  if !s.gameStarted || s.gameStartTime == 0 then (s, [])
  else
    let remaining := max 0 (s.gameDuration - (now - s.gameStartTime))
    if remaining ≤ 0 then
      if s.isHost then
        let r := handleGameEnd s
        (r.1, timerDisplay remaining :: r.2)
      else ({ s with timerInterval := false }, [timerDisplay remaining])
    else (s, [timerDisplay remaining])

/-- `UIManager.handleTimerSync` (second variant in `unnamed/part_005`,
lines 411-442): ignored unless the game is started; with no live
interval yet, a delayed `startTimer` is scheduled instead; otherwise
the guest adopts the host's `gameStartTime`/`gameDuration` and shifts
the start by the clock offset `Date.now() - currentTime`, then updates
the display. -/
def handleTimerSync (now : Int) (d : TimerSyncData) (s : UIState) :
    UIState × List Eff :=
  if !s.gameStarted then (s, [])
  else if !s.timerInterval then (s, [Eff.deferStartTimer 100])
  else
    let s1 := { s with gameStartTime := d.gameStartTime + (now - d.currentTime),
                       gameDuration := d.gameDuration }
    updateTimer now s1

/-- `UIManager.handleNetworkGameStart` (second variant in
`unnamed/part_005`, lines 375-409): NO `gameStarted` guard — any valid
`gameStart` re-adopts `startTime`/`duration`, stops the running timer
and schedules a deferred `startTimer` (100 ms). -/
def handleNetworkGameStart (d : GameStartData) (s : UIState) : UIState × List Eff :=
  if d.startTime == 0 || d.duration == 0 then (s, [])
  else
    ({ s with timerInterval := false, gameStarted := true,
              gameStartTime := d.startTime, gameDuration := d.duration,
              bmSpawning := true },
     [Eff.hideStartButton, Eff.deferStartTimer 100])

end UIB

/- ======================= helper lemmas ======================= -/

theorem mapGet_set_self {α : Type} (m : List (String × α)) (k : String) (v : α) :
    mapGet (mapSet m k v) k = some v := by
  induction m with
  | nil => simp [mapSet, mapGet]
  | cons p rest ih =>
    cases hb : (p.1 == k) with
    | true => simp [mapSet, mapGet, hb]
    | false => simp [mapSet, mapGet, hb, ih]

theorem length_mapSet_of_isSome {α : Type} (m : List (String × α)) (k : String)
    (v : α) (h : (mapGet m k).isSome) : (mapSet m k v).length = m.length := by
  induction m with
  | nil => simp [mapGet] at h
  | cons p rest ih =>
    cases hb : (p.1 == k) with
    | true => simp [mapSet, hb]
    | false =>
      simp [mapGet, hb] at h
      simp [mapSet, hb, ih h]

theorem mapGet_delete_self {α : Type} (m : List (String × α)) (k : String) :
    mapGet (mapDelete m k) k = none := by
  induction m with
  | nil => rfl
  | cons p rest ih =>
    cases hb : (p.1 == k) with
    | true =>
      have hstep : mapDelete (p :: rest) k = mapDelete rest k := by
        simp [mapDelete, List.filter_cons, bne, hb]
      rw [hstep]; exact ih
    | false =>
      have hstep : mapDelete (p :: rest) k = p :: mapDelete rest k := by
        simp [mapDelete, List.filter_cons, bne, hb]
      rw [hstep]; simp [mapGet, hb]; exact ih

theorem mapGet_isSome_of_mem {α : Type} {m : List (String × α)} {k : String}
    {v : α} (h : (k, v) ∈ m) : (mapGet m k).isSome := by
  induction m with
  | nil => cases h
  | cons p rest ih =>
    cases hb : (p.1 == k) with
    | true => simp [mapGet, hb]
    | false =>
      rcases List.mem_cons.mp h with heq | hmem
      · rw [← heq] at hb; simp at hb
      · simp [mapGet, hb]; exact ih hmem

theorem uiRemoveBird_fields (s : UIState) (id : String) :
    (uiRemoveBird s id).1.gameStarted = s.gameStarted ∧
    (uiRemoveBird s id).1.gameStartTime = s.gameStartTime ∧
    (uiRemoveBird s id).1.gameDuration = s.gameDuration ∧
    (uiRemoveBird s id).1.timerInterval = s.timerInterval ∧
    (uiRemoveBird s id).1.isHost = s.isHost ∧
    (uiRemoveBird s id).1.scores = s.scores ∧
    (s.isHost = false → (uiRemoveBird s id).2 = []) := by
  unfold uiRemoveBird
  cases mapGet s.bmBirds id with
  | none => simp
  | some b =>
    refine ⟨rfl, rfl, rfl, rfl, rfl, rfl, ?_⟩
    intro h; simp [h]

theorem clearLoop_fields (ids : List String) (p : UIState × List Eff) :
    (clearLoop ids p).1.gameStarted = p.1.gameStarted ∧
    (clearLoop ids p).1.gameStartTime = p.1.gameStartTime ∧
    (clearLoop ids p).1.gameDuration = p.1.gameDuration ∧
    (clearLoop ids p).1.timerInterval = p.1.timerInterval ∧
    (clearLoop ids p).1.isHost = p.1.isHost ∧
    (clearLoop ids p).1.scores = p.1.scores ∧
    (p.1.isHost = false → (clearLoop ids p).2 = p.2) := by
  induction ids generalizing p with
  | nil => simp [clearLoop]
  | cons id rest ih =>
    have hu := uiRemoveBird_fields p.1 id
    have hrec := ih ((uiRemoveBird p.1 id).1, p.2 ++ (uiRemoveBird p.1 id).2)
    refine ⟨?_, ?_, ?_, ?_, ?_, ?_, ?_⟩ <;>
      simp only [clearLoop] at *
    · rw [hrec.1, hu.1]
    · rw [hrec.2.1, hu.2.1]
    · rw [hrec.2.2.1, hu.2.2.1]
    · rw [hrec.2.2.2.1, hu.2.2.2.1]
    · rw [hrec.2.2.2.2.1, hu.2.2.2.2.1]
    · rw [hrec.2.2.2.2.2.1, hu.2.2.2.2.2.1]
    · intro h
      have he := hu.2.2.2.2.2.2 h
      have h2 : (uiRemoveBird p.1 id).1.isHost = false := by
        rw [hu.2.2.2.2.1]; exact h
      have h3 := hrec.2.2.2.2.2.2 h2
      rw [h3, he, List.append_nil]

theorem removeBird_lookup (s : BMState) (id : String) :
    mapGet (BM1.removeBird s id).1.birds id = none := by
  cases h : mapGet s.birds id with
  | none => simp [BM1.removeBird, h]
  | some b => simp [BM1.removeBird, h, mapGet_delete_self]

theorem removeBird_scores (s : BMState) (id : String) :
    (BM1.removeBird s id).1.scores = s.scores := by
  cases h : mapGet s.birds id with
  | none => simp [BM1.removeBird, h]
  | some b => simp [BM1.removeBird, h]

theorem removeBird_isHost (s : BMState) (id : String) :
    (BM1.removeBird s id).1.isHost = s.isHost := by
  cases h : mapGet s.birds id with
  | none => simp [BM1.removeBird, h]
  | some b => simp [BM1.removeBird, h]

theorem hitRemovalStep_lookup (d : BirdHitData) (s1 : BMState) :
    mapGet (BM1.hitRemovalStep d s1).1.birds d.birdId = none := by
  unfold BM1.hitRemovalStep
  split
  · exact removeBird_lookup _ _
  · next hb => simpa [Option.not_isSome_iff_eq_none] using hb

theorem hitRemovalStep_scores (d : BirdHitData) (s1 : BMState) :
    (BM1.hitRemovalStep d s1).1.scores = s1.scores ∧
    (BM1.hitRemovalStep d s1).1.isHost = s1.isHost := by
  unfold BM1.hitRemovalStep
  split
  · exact ⟨removeBird_scores _ _, removeBird_isHost _ _⟩
  · exact ⟨rfl, rfl⟩

theorem handleNetworkBirdHit_lookup (d : BirdHitData) (s : BMState) :
    mapGet (BM1.handleNetworkBirdHit d s).1.birds d.birdId = none := by
  unfold BM1.handleNetworkBirdHit
  exact hitRemovalStep_lookup _ _

theorem handleNetworkBirdHit_scores_guest (d : BirdHitData) (s : BMState)
    (hg : s.isHost = false) :
    (BM1.handleNetworkBirdHit d s).1.scores =
      updateScore s.scores d.bulletShooterId d.points ∧
    (BM1.handleNetworkBirdHit d s).1.isHost = false := by
  unfold BM1.handleNetworkBirdHit
  simp only [hg, Bool.not_false, if_true]
  refine ⟨(hitRemovalStep_scores _ _).1.trans rfl, (hitRemovalStep_scores _ _).2.trans rfl⟩

theorem natCast_fdiv_thousand (n : Nat) :
    ((n : Int)).fdiv 1000 = ((n / 1000 : Nat) : Int) := by
  cases n with
  | zero => rfl
  | succ m => rfl

theorem clearBirds_fields (s : UIState) :
    (clearBirds s).1.gameStarted = s.gameStarted ∧
    (clearBirds s).1.gameStartTime = s.gameStartTime ∧
    (clearBirds s).1.gameDuration = s.gameDuration ∧
    (clearBirds s).1.timerInterval = s.timerInterval ∧
    (clearBirds s).1.isHost = s.isHost ∧
    (clearBirds s).1.scores = s.scores ∧
    (s.isHost = false → (clearBirds s).2 = []) := by
  unfold clearBirds
  exact clearLoop_fields (s.bmBirds.map Prod.fst) (s, [])

theorem UIC_handleGameEnd_props (s : UIState) :
    (UIC.handleGameEnd s).1.gameStarted = false ∧
    (UIC.handleGameEnd s).1.scores = s.scores ∧
    (s.isHost = true → Eff.send gameEndFrame ∈ (UIC.handleGameEnd s).2) := by
  refine ⟨(clearBirds_fields _).1.trans rfl, (clearBirds_fields _).2.2.2.2.2.1.trans rfl, ?_⟩
  intro hh
  unfold UIC.handleGameEnd
  simp [hh]

theorem UIA_handleGameEnd_props (s : UIState) :
    (UIA.handleGameEnd s).1.gameStarted = false ∧
    (UIA.handleGameEnd s).1.scores = s.scores ∧
    (s.isHost = false → (UIA.handleGameEnd s).2 = []) := by
  refine ⟨(clearBirds_fields _).1.trans rfl, (clearBirds_fields _).2.2.2.2.2.1.trans rfl, ?_⟩
  intro hg
  unfold UIA.handleGameEnd
  simp only [hg, Bool.false_eq_true, if_false, List.nil_append, List.append_nil]
  exact (clearBirds_fields _).2.2.2.2.2.2 rfl

theorem UIC_updateTimer_guest_fields (now : Int) (s : UIState)
    (hg : s.isHost = false) :
    (UIC.updateTimer now s).1.gameStarted = s.gameStarted ∧
    (UIC.updateTimer now s).1.gameStartTime = s.gameStartTime ∧
    (UIC.updateTimer now s).1.gameDuration = s.gameDuration ∧
    (UIC.updateTimer now s).1.scores = s.scores := by
  unfold UIC.updateTimer
  split
  · exact ⟨rfl, rfl, rfl, rfl⟩
  · simp only [hg, Bool.false_eq_true, if_false]
    split
    · exact ⟨rfl, rfl, rfl, rfl⟩
    · exact ⟨rfl, rfl, rfl, rfl⟩

theorem UIB_updateTimer_guest_fields (now : Int) (s : UIState)
    (hg : s.isHost = false) :
    (UIB.updateTimer now s).1.gameStarted = s.gameStarted ∧
    (UIB.updateTimer now s).1.gameStartTime = s.gameStartTime ∧
    (UIB.updateTimer now s).1.gameDuration = s.gameDuration ∧
    (UIB.updateTimer now s).1.scores = s.scores := by
  unfold UIB.updateTimer
  split
  · exact ⟨rfl, rfl, rfl, rfl⟩
  · simp only [hg, Bool.false_eq_true, if_false]
    split
    · exact ⟨rfl, rfl, rfl, rfl⟩
    · exact ⟨rfl, rfl, rfl, rfl⟩

/- ======================= claim theorems ======================= -/

/-- C7: for a run of consecutive failed reconnect attempts, the delay
before the `n`-th attempt (2 ≤ n ≤ 5) is scheduled, is at least the
delay before the `(n-1)`-th and never exceeds 10000 ms (starting at
1000 ms and doubling per failure); after the 5th failed attempt
`attemptReconnect` schedules nothing; and a successful `connect()`
resets the counter to 0 and the delay to 1000 ms. -/
theorem reconnect_backoff_props (n : Nat) (h2 : 2 ≤ n) (h5 : n ≤ 5) :
    ((delayBefore n).isSome ∧
      (delayBefore (n - 1)).getD 0 ≤ (delayBefore n).getD 0 ∧
      (delayBefore n).getD 0 ≤ 10000) ∧
    attemptReconnect (reconnAfter 5) = none ∧
    (∀ s : ReconnState, reconnOpen s = ⟨0, 1000⟩) := by
  refine ⟨?_, by decide, fun s => rfl⟩
  interval_cases n <;> decide

/-- Witness for C7 at n = 3. -/
theorem reconnect_backoff_props_witness :
    (2 ≤ 3 ∧ 3 ≤ 5) ∧
    (((delayBefore 3).isSome ∧
        (delayBefore 2).getD 0 ≤ (delayBefore 3).getD 0 ∧
        (delayBefore 3).getD 0 ≤ 10000) ∧
      attemptReconnect (reconnAfter 5) = none ∧
      (∀ s : ReconnState, reconnOpen s = ⟨0, 1000⟩)) :=
  ⟨⟨by decide, by decide⟩, reconnect_backoff_props 3 (by decide) (by decide)⟩

/-- C9 counterexample: the draw `Math.random() = 0.5` has base-36
string `"0.i"` (the single fractional digit 18), so
`substring(2, 8).toUpperCase()` is `"I"` — a 1-character room code, not
6. -/
theorem roomCode_short_draw :
    hostRoomCode [(18 : Fin 36)] = ['I'] ∧
    (hostRoomCode [(18 : Fin 36)]).length ≠ 6 := by decide

/-- C9 (amended): the room code is the first `min 6 k` base-36
fractional digits of the draw, uppercased — alphanumeric and never
longer than 6, and of length exactly 6 only when the draw's expansion
has at least 6 digits. -/
theorem roomCode_length_min6 (ds : List (Fin 36)) :
    (hostRoomCode ds).length = min 6 ds.length ∧
    (6 ≤ ds.length → (hostRoomCode ds).length = 6) ∧
    (∀ c ∈ hostRoomCode ds, c.isAlphanum) := by
  have hlen : (hostRoomCode ds).length = min 6 ds.length := by
    cases ds with
    | nil => rfl
    | cons a l =>
      simp [hostRoomCode, randomToString36]
      omega
  refine ⟨hlen, ?_, ?_⟩
  · intro h6; rw [hlen]; omega
  · intro c hc
    have hall : ∀ d : Fin 36, ((base36Char d).toUpper).isAlphanum = true := by decide
    cases ds with
    | nil => simp [hostRoomCode, randomToString36] at hc
    | cons a l =>
      have hne : hostRoomCode (a :: l) =
          (((a :: l).map base36Char).take 6).map Char.toUpper := by
        simp [hostRoomCode, randomToString36]
      rw [hne] at hc
      rcases List.mem_map.mp hc with ⟨x, hx, rfl⟩
      have hxm : x ∈ (a :: l).map base36Char := List.take_subset _ _ hx
      rcases List.mem_map.mp hxm with ⟨d, _, rfl⟩
      exact hall d

/-- Witness for C9 at a 6-digit draw. -/
theorem roomCode_length_min6_witness :
    6 ≤ ([0, 1, 2, 3, 4, 5] : List (Fin 36)).length ∧
    (hostRoomCode [0, 1, 2, 3, 4, 5]).length = 6 :=
  ⟨by decide, (roomCode_length_min6 [0, 1, 2, 3, 4, 5]).2.1 (by decide)⟩

/-- C1 counterexample: a guest holding bird `b1` that receives the SAME
`birdHit{birdId := b1, points := 10}` twice ends with the shooter's
ledger entry at 20, not 10 — the duplicate delivery incremented the
score a second time. -/
theorem birdHit_double_delivery_double_counts :
    mapGet (BM1.handleNetworkBirdHit ⟨"b1", "P", ⟨0, 0, 0⟩, 10⟩
        (BM1.handleNetworkBirdHit ⟨"b1", "P", ⟨0, 0, 0⟩, 10⟩
          ⟨[("b1", ⟨⟨0, 0, 0⟩, ⟨1, 0, 0⟩, 0⟩)], ["b1"], [], false, true⟩).1).1.scores "P" =
      some 20 ∧
    mapGet (BM1.handleNetworkBirdHit ⟨"b1", "P", ⟨0, 0, 0⟩, 10⟩
        ⟨[("b1", ⟨⟨0, 0, 0⟩, ⟨1, 0, 0⟩, 0⟩)], ["b1"], [], false, true⟩).1.scores "P" =
      some 10 := by
  constructor <;> rfl

/-- C1 (amended): hit handling is NOT idempotent per bird id — each
`birdHit` delivered to a non-host adds the message's points to the
shooter's ledger entry (the increment precedes the existence check);
only the bird's removal is idempotent (after one delivery the id is
gone from the map).  Symmetrically, the host answers EVERY
`birdHitAttempt` whose bird id is still in its map with a fresh
`birdHit` broadcast and leaves its own state unchanged, so a duplicate
attempt triggers a second broadcast. -/
theorem birdHit_scoring_not_idempotent
    (d : BirdHitData) (s : BMState) (hg : s.isHost = false)
    (sN : NMState) (ad : HitAttemptData) (sid : String)
    (hh : sN.isHost = true) (hself : isSelf (some sid) sN.localPlayerId = false)
    (hmem : sN.birdIds.contains ad.birdId = true) :
    mapGet (BM1.handleNetworkBirdHit d
        (BM1.handleNetworkBirdHit d s).1).1.scores d.bulletShooterId =
      some ((mapGet s.scores d.bulletShooterId).getD 0 + 2 * d.points) ∧
    mapGet (BM1.handleNetworkBirdHit d s).1.birds d.birdId = none ∧
    NMW.handleMessage sN
        { type := "birdHitAttempt", senderId := some sid,
          data := some (Payload.attempt ad) } =
      (sN, [Eff.send (sendFill sN.localPlayerId
        { type := "birdHit",
          data := some (Payload.hit ⟨ad.birdId, sid, ad.position, 10⟩) })]) := by
  refine ⟨?_, handleNetworkBirdHit_lookup d s, ?_⟩
  · have h1 := handleNetworkBirdHit_scores_guest d s hg
    have h2 := handleNetworkBirdHit_scores_guest d (BM1.handleNetworkBirdHit d s).1 h1.2
    rw [h2.1, h1.1]
    unfold updateScore
    rw [mapGet_set_self, mapGet_set_self]
    simp only [Option.getD_some]
    congr 1
    ring
  · have hm2 : ad.birdId ∈ sN.birdIds := by simpa using hmem
    simp [NMW.handleMessage, NMW.dispatch, hself, hh, hm2]

/-- Witness for C1 on a concrete guest ledger and host attempt. -/
theorem birdHit_scoring_not_idempotent_witness :
    mapGet (BM1.handleNetworkBirdHit ⟨"b2", "Q", ⟨0, 0, 0⟩, 10⟩
        (BM1.handleNetworkBirdHit ⟨"b2", "Q", ⟨0, 0, 0⟩, 10⟩
          ⟨[("b2", ⟨⟨0, 0, 0⟩, ⟨1, 0, 0⟩, 5⟩)], ["b2"], [("Q", 3)], false, true⟩).1).1.scores "Q" =
      some (3 + 2 * 10) ∧
    mapGet (BM1.handleNetworkBirdHit ⟨"b2", "Q", ⟨0, 0, 0⟩, 10⟩
        ⟨[("b2", ⟨⟨0, 0, 0⟩, ⟨1, 0, 0⟩, 5⟩)], ["b2"], [("Q", 3)], false, true⟩).1.birds "b2" =
      none ∧
    NMW.handleMessage ⟨some "H", some "R", true, ["b2"], true, true⟩
        { type := "birdHitAttempt", senderId := some "G",
          data := some (Payload.attempt ⟨"b2", "G", ⟨0, 0, 0⟩⟩) } =
      (⟨some "H", some "R", true, ["b2"], true, true⟩,
       [Eff.send (sendFill (some "H")
         { type := "birdHit",
           data := some (Payload.hit ⟨"b2", "G", ⟨0, 0, 0⟩, 10⟩) })]) :=
  birdHit_scoring_not_idempotent ⟨"b2", "Q", ⟨0, 0, 0⟩, 10⟩
    ⟨[("b2", ⟨⟨0, 0, 0⟩, ⟨1, 0, 0⟩, 5⟩)], ["b2"], [("Q", 3)], false, true⟩ rfl
    ⟨some "H", some "R", true, ["b2"], true, true⟩ ⟨"b2", "G", ⟨0, 0, 0⟩⟩ "G"
    rfl (by decide) (by decide)

/-- C3 counterexample: the first-variant spawn handler, on a receiver
that already holds bird id `X`, adds a SECOND object for `X` to the
scene (the old object is orphaned there) — the handler is not a
no-op. -/
theorem duplicate_spawn_adds_scene_object :
    (BM1.handleNetworkBirdSpawn ⟨"X", ⟨0, 0, 0⟩, ⟨1, 0, 0⟩, 0, false⟩
        ⟨[("X", ⟨⟨0, 0, 0⟩, ⟨1, 0, 0⟩, 0⟩)], ["X"], [], false, false⟩).1.scene =
      ["X", "X"] ∧
    (["X", "X"] : List String) ≠ ["X"] := ⟨rfl, by decide⟩

/-- C3 (amended): the third-variant spawn handler (AudioManager.js
lines 831-850) is idempotent — on a receiver already holding the id it
changes nothing; the first-variant handler (lines 385-402) instead
replaces the map entry with a fresh object and appends a second object
to the scene (the map still holds exactly one entry for the id, but
the scene grows). -/
theorem spawn_idempotent_v3_not_v1 (d : BirdSpawnData) (s : BMState)
    (h : (mapGet s.birds d.id).isSome = true) :
    BM3.handleNetworkBirdSpawn d s = (s, []) ∧
    (BM1.handleNetworkBirdSpawn d s).1.scene = s.scene ++ [d.id] ∧
    (BM1.handleNetworkBirdSpawn d s).1.birds.length = s.birds.length ∧
    mapGet (BM1.handleNetworkBirdSpawn d s).1.birds d.id =
      some ⟨d.position, d.direction, d.spawnTime⟩ := by
  refine ⟨?_, rfl, ?_, ?_⟩
  · simp [BM3.handleNetworkBirdSpawn, h]
  · simpa [BM1.handleNetworkBirdSpawn] using
      length_mapSet_of_isSome s.birds d.id ⟨d.position, d.direction, d.spawnTime⟩ h
  · simpa [BM1.handleNetworkBirdSpawn] using
      mapGet_set_self s.birds d.id ⟨d.position, d.direction, d.spawnTime⟩

/-- Witness for C3 on a receiver already holding the bird id. -/
theorem spawn_idempotent_v3_not_v1_witness :
    (mapGet ([("X", (⟨⟨0, 0, 0⟩, ⟨1, 0, 0⟩, 0⟩ : BirdObj))] : List (String × BirdObj)) "X").isSome = true ∧
    BM3.handleNetworkBirdSpawn ⟨"X", ⟨2, 2, 2⟩, ⟨1, 0, 0⟩, 7, true⟩
        ⟨[("X", ⟨⟨0, 0, 0⟩, ⟨1, 0, 0⟩, 0⟩)], ["X"], [], false, false⟩ =
      (⟨[("X", ⟨⟨0, 0, 0⟩, ⟨1, 0, 0⟩, 0⟩)], ["X"], [], false, false⟩, []) :=
  ⟨by decide,
   (spawn_idempotent_v3_not_v1 ⟨"X", ⟨2, 2, 2⟩, ⟨1, 0, 0⟩, 7, true⟩
     ⟨[("X", ⟨⟨0, 0, 0⟩, ⟨1, 0, 0⟩, 0⟩)], ["X"], [], false, false⟩ (by decide)).1⟩

/-- C4 counterexample: a NON-host whose local collision test detects a
hit on bird `b1` removes it from its map immediately — shared state is
mutated before any `birdHit` confirmation has been received. -/
theorem guest_local_hit_removes_before_confirm :
    (BM1.handleBulletCollision (fun _ _ => true) "P"
        ⟨[("b1", ⟨⟨0, 0, 0⟩, ⟨1, 0, 0⟩, 0⟩)], ["b1"], [], false, true⟩).1.birds = [] ∧
    (BM1.handleBulletCollision (fun _ _ => true) "P"
        ⟨[("b1", ⟨⟨0, 0, 0⟩, ⟨1, 0, 0⟩, 0⟩)], ["b1"], [], false, true⟩).2.2 = true := ⟨rfl, rfl⟩

/-- C4 (amended): a non-host that locally detects a hit sends a
`birdHitAttempt` to the host and leaves the Score Ledger untouched
(scoring waits for the `birdHit` confirmation), but it does NOT defer
the entity removal — the bird is deleted from its map and scene
immediately at detection time (first variant, AudioManager.js lines
259-333; no `birdHit` is sent by the guest). -/
theorem guest_hit_sends_attempt_removes_locally
    (hits : String → BirdObj → Bool) (shooter : String)
    (s : BMState) (id : String) (bird : BirdObj)
    (hg : s.isHost = false)
    (hf : s.birds.find? (fun p => hits p.1 p.2) = some (id, bird)) :
    BM1.handleBulletCollision hits shooter s =
      ({ s with birds := mapDelete s.birds id, scene := s.scene.erase id },
       [Eff.sound "birdDestruction", Eff.explosion bird.position,
        Eff.send { type := "birdHitAttempt",
                   data := some (Payload.attempt ⟨id, shooter, bird.position⟩) }],
       true) := by
  have hmem : (id, bird) ∈ s.birds := List.mem_of_find?_eq_some hf
  obtain ⟨b, hb⟩ := Option.isSome_iff_exists.mp (mapGet_isSome_of_mem hmem)
  unfold BM1.handleBulletCollision
  rw [hf]
  simp [BM1.removeBird, hb, hg]

/-- Witness for C4 on a concrete one-bird guest. -/
theorem guest_hit_sends_attempt_removes_locally_witness :
    BM1.handleBulletCollision (fun _ _ => true) "P"
        ⟨[("b1", ⟨⟨0, 0, 0⟩, ⟨1, 0, 0⟩, 0⟩)], ["b1"], [("P", 5)], false, true⟩ =
      (⟨[], [], [("P", 5)], false, true⟩,
       [Eff.sound "birdDestruction", Eff.explosion ⟨0, 0, 0⟩,
        Eff.send { type := "birdHitAttempt",
                   data := some (Payload.attempt ⟨"b1", "P", ⟨0, 0, 0⟩⟩) }],
       true) :=
  guest_hit_sends_attempt_removes_locally (fun _ _ => true) "P"
    ⟨[("b1", ⟨⟨0, 0, 0⟩, ⟨1, 0, 0⟩, 0⟩)], ["b1"], [("P", 5)], false, true⟩
    "b1" ⟨⟨0, 0, 0⟩, ⟨1, 0, 0⟩, 0⟩ rfl rfl

/-- C2 (amended): the `World.js` dispatcher drops every frame whose
`senderId` equals the (assigned) local participant id before the
switch, so no handler runs and no state changes; the standalone
`NetworkManager.js` dispatcher has no such global check and does
dispatch self frames (see the counterexample). -/
theorem selfFrames_dropped_worldJs (s : NMState) (m : Frame) (lid : String)
    (hl : s.localPlayerId = some lid) (hm : m.senderId = some lid) :
    NMW.handleMessage s m = (s, []) := by
  simp [NMW.handleMessage, isSelf, hl, hm]

/-- Witness for C2 on a concrete self frame. -/
theorem selfFrames_dropped_worldJs_witness :
    NMW.handleMessage ⟨some "A", some "R", true, [], false, false⟩
        { type := "birdSpawned", senderId := some "A" } =
      (⟨some "A", some "R", true, [], false, false⟩, []) :=
  selfFrames_dropped_worldJs _ _ "A" rfl rfl

/-- C2 counterexample: in the `NetworkManager.js` dispatcher a
`bulletSpawned` frame whose `senderId` equals the local participant id
is still routed to the bullet handler — a handler side effect occurs. -/
theorem selfFrame_dispatched_networkManagerJs :
    (NMS.handleMessage ⟨some "A", some "R", false, [], false, false⟩
        { type := "bulletSpawned", senderId := some "A" }).2 =
      [Eff.bulletSpawn (some "A")] ∧
    Frame.senderId { type := "bulletSpawned", senderId := some "A" } =
      NMState.localPlayerId ⟨some "A", some "R", false, [], false, false⟩ :=
  ⟨rfl, rfl⟩

/-- C5 counterexample: in the FIRST `part_005` UIManager variant a
GUEST whose countdown reaches zero runs the full `handleGameEnd()`:
`gameStarted` flips to false (the session is torn down locally), not
just the display tick. -/
theorem guest_zero_countdown_part005_ends_game :
    (UIA.updateTimer 40000
        ⟨true, 1000, 30000, true, 0, false, [("b", ⟨⟨0, 0, 0⟩, ⟨1, 0, 0⟩, 0⟩)],
         ["b"], true, [("p", 10)]⟩).1.gameStarted = false ∧
    UIState.isHost ⟨true, 1000, 30000, true, 0, false, [("b", ⟨⟨0, 0, 0⟩, ⟨1, 0, 0⟩, 0⟩)],
         ["b"], true, [("p", 10)]⟩ = false := ⟨rfl, rfl⟩

/-- C5 (amended): in the `part_006` UIManager a guest reaching
`remaining = 0` ONLY clears its interval — `gameStarted`, the ledger
and the bird map are untouched and nothing is sent — while a host
reaching zero tears the session down and broadcasts `gameEnd`.  In the
first `part_005` variant a guest reaching zero instead runs the full
`handleGameEnd` locally (see the counterexample), though even there it
leaves the ledger alone and sends nothing. -/
theorem guest_zero_countdown_part006 (now : Int) (s : UIState)
    (hg : s.isHost = false) (hs : s.gameStarted = true) (h0 : s.gameStartTime ≠ 0)
    (hend : s.gameDuration ≤ now - s.gameStartTime) :
    UIC.updateTimer now s = ({ s with timerInterval := false }, [timerDisplay 0]) ∧
    (∀ sh : UIState, sh.isHost = true → sh.gameStarted = true → sh.gameStartTime ≠ 0 →
      sh.gameDuration ≤ now - sh.gameStartTime →
      (UIC.updateTimer now sh).1.gameStarted = false ∧
      Eff.send gameEndFrame ∈ (UIC.updateTimer now sh).2) ∧
    (UIA.updateTimer now s).1.scores = s.scores ∧
    (UIA.updateTimer now s).2 = [timerDisplay 0] := by
  have hrem : max 0 (s.gameDuration - (now - s.gameStartTime)) = 0 := by omega
  refine ⟨?_, ?_, ?_, ?_⟩
  · unfold UIC.updateTimer
    simp [hs, beq_iff_eq, h0, hrem, hg]
  · intro sh hh hsh h0h hendh
    have hremh : max 0 (sh.gameDuration - (now - sh.gameStartTime)) = 0 := by omega
    have hprops := UIC_handleGameEnd_props sh
    constructor
    · unfold UIC.updateTimer
      simp only [hsh, Bool.not_true, Bool.false_or, beq_iff_eq, hremh, hh, if_true, le_refl,
        if_pos]
      simp [h0h, hprops.1]
    · unfold UIC.updateTimer
      simp only [hsh, Bool.not_true, Bool.false_or, beq_iff_eq, hremh, hh, if_true, le_refl,
        if_pos]
      simp [h0h]
      exact Or.inr (hprops.2.2 hh)
  · have hp := UIA_handleGameEnd_props s
    unfold UIA.updateTimer
    simp [hs, beq_iff_eq, h0, hrem, hp.2.1]
  · have hp := UIA_handleGameEnd_props s
    unfold UIA.updateTimer
    simp [hs, beq_iff_eq, h0, hrem, hp.2.2 hg]

/-- Witness for C5 on a concrete guest and host at the expiry time. -/
theorem guest_zero_countdown_part006_witness :
    UIC.updateTimer 60000 ⟨true, 1000, 30000, true, 0, false, [], [], true, [("p", 7)]⟩ =
      (⟨true, 1000, 30000, false, 0, false, [], [], true, [("p", 7)]⟩, [timerDisplay 0]) ∧
    (UIC.updateTimer 60000 ⟨true, 1000, 30000, true, 0, true, [], [], true, []⟩).1.gameStarted =
      false := by
  have h := guest_zero_countdown_part006 60000
    ⟨true, 1000, 30000, true, 0, false, [], [], true, [("p", 7)]⟩
    rfl rfl (by decide) (by decide)
  exact ⟨h.1, (h.2.1 ⟨true, 1000, 30000, true, 0, true, [], [], true, []⟩
    rfl rfl (by decide) (by decide)).1⟩

/-- C6 counterexample: in the second `part_005` UIManager variant a
`gameStart` received while the session is already running is NOT
ignored — it overwrites `gameStartTime` (5000 becomes 9999) and stops
the running timer. -/
theorem gameStart_rerun_part005_overwrites :
    (UIB.handleNetworkGameStart ⟨9999, 60000⟩
        ⟨true, 5000, 120000, true, 0, false, [], [], true, []⟩).1.gameStartTime = 9999 ∧
    UIState.gameStarted ⟨true, 5000, 120000, true, 0, false, [], [], true, []⟩ = true ∧
    (9999 : Int) ≠ 5000 := ⟨rfl, rfl, by decide⟩

/-- C6 (amended): the `part_006` handler is idempotent — a `gameStart`
received while `gameStarted` changes nothing — and, while not running,
a valid `gameStart` adopts `startTime`/`duration` verbatim and
transitions to running with a live timer, leaving the ledger alone.
The second `part_005` handler has no such guard and re-adopts the
fields even while running (see the counterexample). -/
theorem gameStart_idempotent_part006 (now : Int) (d : GameStartData) (s : UIState) :
    (s.gameStarted = true → UIC.handleNetworkGameStart now d s = (s, [])) ∧
    (s.gameStarted = false → d.startTime ≠ 0 → d.duration ≠ 0 → s.isHost = false →
      (UIC.handleNetworkGameStart now d s).1.gameStarted = true ∧
      (UIC.handleNetworkGameStart now d s).1.gameStartTime = d.startTime ∧
      (UIC.handleNetworkGameStart now d s).1.gameDuration = d.duration ∧
      (UIC.handleNetworkGameStart now d s).1.timerInterval = true ∧
      (UIC.handleNetworkGameStart now d s).1.scores = s.scores) := by
  constructor
  · intro h
    unfold UIC.handleNetworkGameStart
    simp [h]
  · intro hns hst hdu hg
    have hfields := UIC_updateTimer_guest_fields now
      { s with timerInterval := false, gameStarted := true, gameStartTime := d.startTime,
               gameDuration := d.duration, bmSpawning := true } hg
    unfold UIC.handleNetworkGameStart
    rw [if_neg (by simp [hns]), if_neg (by simp [hst, hdu])]
    exact ⟨hfields.1.trans rfl, hfields.2.1.trans rfl, hfields.2.2.1.trans rfl, rfl,
      hfields.2.2.2.trans rfl⟩

/-- Witness for C6: a running state ignores `gameStart`; an idle guest
adopts it. -/
theorem gameStart_idempotent_part006_witness :
    UIC.handleNetworkGameStart 0 ⟨7777, 60000⟩
        ⟨true, 5000, 120000, true, 0, false, [], [], true, []⟩ =
      (⟨true, 5000, 120000, true, 0, false, [], [], true, []⟩, []) ∧
    (UIC.handleNetworkGameStart 100 ⟨7777, 60000⟩
        ⟨false, 0, 120000, false, 0, false, [], [], false, [("p", 3)]⟩).1.gameStartTime =
      7777 := by
  constructor
  · exact (gameStart_idempotent_part006 0 ⟨7777, 60000⟩
      ⟨true, 5000, 120000, true, 0, false, [], [], true, []⟩).1 rfl
  · exact ((gameStart_idempotent_part006 100 ⟨7777, 60000⟩
      ⟨false, 0, 120000, false, 0, false, [], [], false, [("p", 3)]⟩).2 rfl
      (by decide) (by decide) rfl).2.1

/-- C8 counterexample: host elapsed time 1999 ms gives `gameTime = 1`;
a guest applying that sync at local time 5000 adjusts its start to
3001, so `L - adjustedStart = 1999` — which is 999 ms away from
`G*1000 = 1000`, far outside the claimed 50 ms. -/
theorem timerSync_drift_exceeds_50ms :
    (UIB.handleTimerSync 5000 (UIB.mkTimerSync 1999 0 120000)
        ⟨true, 0, 120000, true, 0, false, [], [], true, []⟩).1.gameStartTime = 3001 ∧
    (5000 - 3001 : Int) - (UIB.mkTimerSync 1999 0 120000).gameTime * 1000 = 999 ∧
    ¬ ((999 : Int) ≤ 50) := ⟨rfl, by decide, by decide⟩

/-- C8 (amended): after `handleTimerSync`, the guest's adjusted start
satisfies `L - adjustedStart = T1 - T0` EXACTLY — the host's true
elapsed time — and `G*1000` only brackets it to within the flooring
error: `G*1000 ≤ L - adjustedStart < G*1000 + 1000` (a gap of up to
999 ms, not 50). -/
theorem timerSync_adjustment_exact (T0 T1 D L : Int) (s : UIState)
    (hgs : s.gameStarted = true) (hti : s.timerInterval = true)
    (hg : s.isHost = false) (h0 : 0 ≤ T1 - T0) :
    L - (UIB.handleTimerSync L (UIB.mkTimerSync T1 T0 D) s).1.gameStartTime = T1 - T0 ∧
    (UIB.mkTimerSync T1 T0 D).gameTime * 1000 ≤ T1 - T0 ∧
    T1 - T0 < (UIB.mkTimerSync T1 T0 D).gameTime * 1000 + 1000 := by
  obtain ⟨n, hn⟩ := Int.eq_ofNat_of_zero_le h0
  have hfd : (T1 - T0).fdiv 1000 = ((n / 1000 : Nat) : Int) := by
    rw [hn]; exact natCast_fdiv_thousand n
  refine ⟨?_, ?_, ?_⟩
  · have hpres := UIB_updateTimer_guest_fields L
      { s with gameStarted := true, gameStartTime := T0 + (L - T1), gameDuration := D,
               timerInterval := true } hg
    unfold UIB.handleTimerSync
    simp only [hgs, hti, Bool.not_true, Bool.false_eq_true, if_false, UIB.mkTimerSync]
    rw [hpres.2.1]
    show L - (T0 + (L - T1)) = T1 - T0
    ring
  · show (T1 - T0).fdiv 1000 * 1000 ≤ T1 - T0
    rw [hfd, hn]
    exact_mod_cast Nat.div_mul_le_self n 1000
  · show T1 - T0 < (T1 - T0).fdiv 1000 * 1000 + 1000
    rw [hfd, hn]
    have hb : n < n / 1000 * 1000 + 1000 := by omega
    exact_mod_cast hb

/-- Witness for C8 at T0 = 0, T1 = 1999, L = 5000. -/
theorem timerSync_adjustment_exact_witness :
    (5000 : Int) - (UIB.handleTimerSync 5000 (UIB.mkTimerSync 1999 0 120000)
        ⟨true, 0, 120000, true, 0, false, [], [], true, []⟩).1.gameStartTime = 1999 - 0 ∧
    (UIB.mkTimerSync 1999 0 120000).gameTime * 1000 ≤ 1999 - 0 ∧
    (1999 : Int) - 0 < (UIB.mkTimerSync 1999 0 120000).gameTime * 1000 + 1000 :=
  timerSync_adjustment_exact 0 1999 120000 5000
    ⟨true, 0, 120000, true, 0, false, [], [], true, []⟩ rfl rfl rfl (by decide)

/-- C10: on a guest (`World.js` dispatcher) a `timerSync` frame is
dropped — no state change, no handler call — whenever the game is not
started, the timer interval does not exist yet, or the payload's
`gameTime` is missing or 0; and every sync the host builds during the
first second of a match carries `gameTime = 0` (the floored elapsed
seconds), so it is dropped. -/
theorem timerSync_guest_drop_rules (s : NMState) (m : Frame)
    (hty : m.type = "timerSync")
    (hself : isSelf m.senderId s.localPlayerId = false)
    (hhost : s.isHost = false)
    (hdrop : s.uiGameStarted = false ∨ s.uiTimerInterval = false ∨
             syncGameTime m = none ∨ syncGameTime m = some 0) :
    NMW.handleMessage s m = (s, []) ∧
    (∀ T1 T0 D : Int, 0 ≤ T1 - T0 → T1 - T0 < 1000 →
      (UIB.mkTimerSync T1 T0 D).gameTime = 0) := by
  constructor
  · obtain ⟨ty, sid, mid, rc, pl, da, pid, msg⟩ := m
    rw [show Frame.type ⟨ty, sid, mid, rc, pl, da, pid, msg⟩ = ty from rfl] at hty
    subst hty
    rcases hdrop with hGS | hTI | hn | hz
    · simp [NMW.handleMessage, NMW.dispatch, hself, hhost, hGS]
    · simp [NMW.handleMessage, NMW.dispatch, hself, hhost, hTI]
    · rcases da with _ | p
      · simp [NMW.handleMessage, NMW.dispatch, hself, hhost]
      · cases p <;> simp_all [syncGameTime, NMW.handleMessage, NMW.dispatch, hself, hhost]
    · rcases da with _ | p
      · simp [syncGameTime] at hz
      · cases p <;> simp_all [syncGameTime, NMW.handleMessage, NMW.dispatch, hself, hhost]
  · intro T1 T0 D h0 h1
    obtain ⟨n, hn⟩ := Int.eq_ofNat_of_zero_le h0
    have hlt : n < 1000 := by
      rw [hn] at h1
      exact_mod_cast h1
    show (T1 - T0).fdiv 1000 = 0
    rw [hn, natCast_fdiv_thousand n, Nat.div_eq_of_lt hlt]
    rfl

/-- Witness for C10 at a gameTime-zero sync on a fully started guest. -/
theorem timerSync_guest_drop_rules_witness :
    NMW.handleMessage ⟨some "G", some "R", false, [], true, true⟩
        { type := "timerSync", senderId := some "H",
          data := some (Payload.timer ⟨500, 0, 120000, 0⟩) } =
      (⟨some "G", some "R", false, [], true, true⟩, []) ∧
    (UIB.mkTimerSync 999 0 120000).gameTime = 0 := by
  have h := timerSync_guest_drop_rules ⟨some "G", some "R", false, [], true, true⟩
    { type := "timerSync", senderId := some "H",
      data := some (Payload.timer ⟨500, 0, 120000, 0⟩) }
    rfl (by decide) rfl (Or.inr (Or.inr (Or.inr rfl)))
  exact ⟨h.1, h.2 999 0 120000 (by decide) (by decide)⟩

end TSM
